import Mathlib

/-!
Verification of the chart-composition core of the trade-analytics repository.

The canonical implementation (per the design notes of the specification) is
`generate_chart` in `scripts/chart-server.py`.  The definitions below are a
shallow embedding of that function and of the pandas timestamp operations it
relies on:

* prices and coordinates are modelled as exact rationals;
* a pandas `Timestamp` is either timezone-naive (a wall-clock value) or
  timezone-aware (a UTC instant together with a fixed-offset zone);
  `tz_localize` and `tz_convert` are modelled directly;
* the OHLCV dataframe is a list of rows together with the timezone of its
  index (`none` = naive index); for an aware index the stored `time` field is
  the UTC instant, for a naive index it is the wall-clock value, matching the
  representation pandas compares on;
* `data.index.get_indexer([d], method='nearest')[0]` is modelled by
  `nearestIdx`: the first index minimising the absolute distance, which for a
  monotonically increasing index coincides with the pandas nearest-neighbour
  lookup (ties broken toward the earlier bar);
* the per-leg `try/except ... continue` is modelled by `stepLeg` returning the
  state unchanged when the leg does not resolve (`executed_at` missing or
  unparseable is modelled as `none`, any other failure cannot occur in the
  loop body);
* the black-box rendering engine is represented by the `default_ylim` the
  engine chose for the price axis; the produced figure is represented by a
  `ChartResult` record holding everything `generate_chart` draws on top of the
  base chart (reference lines, markers, final y-limits, title).
-/

namespace TradeAnalytics

/-- A pandas `Timestamp`: either timezone-naive (just a wall clock, in
arbitrary time units) or timezone-aware (a UTC instant plus the offset of the
zone it is displayed in, so its wall clock is `utc + off`). -/
inductive PTimestamp where
  | naive (wall : Int)
  | aware (utc : Int) (off : Int)
deriving DecidableEq

/-- `Timestamp.tz is None` test. -/
def PTimestamp.tzIsNone : PTimestamp → Bool
  | .naive _ => true
  | .aware _ _ => false

/-- `Timestamp.tz_localize('UTC')`: interpret a naive wall clock as a UTC
instant.  (The source only calls it on naive timestamps; on an aware one
pandas would raise, which can never happen in the embedded code path.) -/
def tz_localize_UTC : PTimestamp → PTimestamp
  | .naive w => .aware w 0
  | .aware u o => .aware u o

/-- `Timestamp.tz_convert(z)`: change the display zone of an aware timestamp,
keeping the underlying UTC instant. -/
def tz_convert (z : Int) : PTimestamp → PTimestamp
  | .naive w => .naive w
  | .aware u _ => .aware u z

/-- `Timestamp.tz_localize(None)`: strip the timezone of an aware timestamp,
keeping its wall clock (a no-op on a naive timestamp). -/
def tz_localize_none : PTimestamp → PTimestamp
  | .naive w => .naive w
  | .aware u o => .naive (u + o)

/-- The value pandas compares timestamps on: the UTC instant for aware
timestamps, the wall clock for naive ones. -/
def tsKey : PTimestamp → Int
  | .naive w => w
  | .aware u _ => u

/-- One row of the OHLCV dataframe.  `time` is the index value of the row:
the UTC instant when the index is timezone-aware, the wall clock when it is
naive. -/
structure Row where
  time : Int
  open_ : ℚ
  high : ℚ
  low : ℚ
  close : ℚ
  volume : ℚ
deriving DecidableEq

/-- The OHLCV dataframe `data`: its index timezone (`data.index.tz`, `none`
when the index is naive) and its rows in index order. -/
structure OhlcvSeries where
  tz : Option Int
  rows : List Row
deriving DecidableEq

/-- The timezone reconciliation block of `generate_chart`
(`scripts/chart-server.py`, the `# Handle timezone` block):

    if data.index.tz is not None:
        if leg_date.tz is None:
            leg_date = leg_date.tz_localize('UTC').tz_convert(data.index.tz)
        else:
            leg_date = leg_date.tz_convert(data.index.tz)
    else:
        if leg_date.tz is not None:
            leg_date = leg_date.tz_localize(None)
-/
def reconcileTz (dataTz : Option Int) (t : PTimestamp) : PTimestamp :=
  match dataTz with
  | some z => if t.tzIsNone then tz_convert z (tz_localize_UTC t) else tz_convert z t
  | none => if t.tzIsNone then t else tz_localize_none t

/-- Inner loop of `data.index.get_indexer([d], method='nearest')[0]`:
scan the remaining index values keeping the position of the closest value
seen so far (strict improvement only, so the earliest minimiser wins). -/
def nearestIdxGo (k : Int) : List Int → Nat → Nat → Nat → Nat
  | [], _, best, _ => best
  | t :: rest, i, best, bestDist =>
      if (t - k).natAbs < bestDist then nearestIdxGo k rest (i + 1) i (t - k).natAbs
      else nearestIdxGo k rest (i + 1) best bestDist

/-- `data.index.get_indexer([d], method='nearest')[0]` for a non-empty,
monotonically increasing index: the position of the index value closest to
`k`, ties broken toward the earlier bar. -/
def nearestIdx (times : List Int) (k : Int) : Nat :=
  match times with
  | [] => 0
  | t :: rest => nearestIdxGo k rest 1 0 (t - k).natAbs

/-- Resolution of one event timestamp against the series: timezone
reconciliation followed by nearest-index lookup. -/
def resolveIdx (data : OhlcvSeries) (t : PTimestamp) : Nat :=
  nearestIdx (data.rows.map Row.time) (tsKey (reconcileTz data.tz t))

/-- One trade leg, as the duck-typed dict reaches the marker loop:
`executed_at` is the parsed `pd.Timestamp(leg.get('executed_at', ''))`
(`none` when the key is missing or the string does not parse, i.e. when the
per-leg `try` block raises at the parse), `leg_type` is
`leg.get('leg_type')` (`none` when the key is missing), `price` is the
leg's own execution price (read by the other, non-canonical variant only). -/
structure Leg where
  executed_at : Option PTimestamp
  leg_type : Option String
  price : ℚ
deriving DecidableEq

/-- `leg.get('leg_type') in ['ENTRY', 'ADD']`. -/
def isBuyLeg (lt : Option String) : Bool :=
  lt == some "ENTRY" || lt == some "ADD"

/-- `colors.get(leg.get('leg_type'), '#71717a')` with
`colors = {'ENTRY': '#10b981', 'ADD': '#3b82f6', 'TRIM': '#f59e0b',
'EXIT': '#ef4444'}`. -/
def legColors (lt : Option String) : String :=
  if lt == some "ENTRY" then "#10b981"
  else if lt == some "ADD" then "#3b82f6"
  else if lt == some "TRIM" then "#f59e0b"
  else if lt == some "EXIT" then "#ef4444"
  else "#71717a"

/-- One scatter marker drawn by `ax_price.scatter(x_pos, y_pos, marker=...,
color=..., s=150, ...)`. -/
structure Marker where
  x : ℚ
  y : ℚ
  shape : String
  color : String
  size : ℚ
deriving DecidableEq

/-- State threaded through the marker loop: the `used_positions` dict
(`idx -> count`, missing keys read as `0` via `.get(idx, 0)`) and the markers
drawn so far, in drawing order. -/
structure MarkerState where
  used_positions : Nat → Nat
  markers : List Marker

/-- `data['High'].max()` (junk value on an empty frame, never used there). -/
def seriesHigh (data : OhlcvSeries) : ℚ :=
  match data.rows.map Row.high with
  | [] => 0
  | h :: hs => hs.foldl max h

/-- `data['Low'].min()` (junk value on an empty frame, never used there). -/
def seriesLow (data : OhlcvSeries) : ℚ :=
  match data.rows.map Row.low with
  | [] => 0
  | l :: ls => ls.foldl min l

/-- `price_range = data['High'].max() - data['Low'].min()`. -/
def priceRange (data : OhlcvSeries) : ℚ :=
  seriesHigh data - seriesLow data

/-- The row at position `idx` (`data.iloc[idx]`); the default is never
reached on the in-range positions the code accesses. -/
def rowAt (data : OhlcvSeries) (idx : Nat) : Row :=
  data.rows.getD idx ⟨0, 0, 0, 0, 0, 0⟩

/-- One iteration of the `for leg in legs:` marker loop of
`generate_chart` (`scripts/chart-server.py`).  A leg whose timestamp does not
parse (the `except` path) or whose resolved position fails the
`0 <= idx < len(data)` guard leaves the state untouched; otherwise the leg is
drawn with the horizontal jitter taken from the shared per-position counter
and the vertical position taken from the candle at the resolved position. -/
def stepLeg (data : OhlcvSeries) (marker_offset : ℚ) (st : MarkerState) (leg : Leg) :
    MarkerState :=
  match leg.executed_at with
  | none => st
  | some t0 =>
      let idx := resolveIdx data t0
      match data.rows.get? idx with
      | none => st
      | some candle =>
          let is_buy := isBuyLeg leg.leg_type
          let shape := if is_buy then "^" else "v"
          let marker_count := st.used_positions idx
          let x_offset : ℚ :=
            if is_buy then -0.15 + (marker_count : ℚ) * 0.15
            else 0.15 + (marker_count : ℚ) * 0.15
          let x_pos : ℚ := (idx : ℚ) + x_offset
          let y_pos : ℚ :=
            if is_buy then candle.low - marker_offset else candle.high + marker_offset
          let color := legColors leg.leg_type
          { used_positions := fun j => if j = idx then marker_count + 1 else st.used_positions j
            markers := st.markers ++ [⟨x_pos, y_pos, shape, color, 150⟩] }

/-- Initial marker-loop state: `used_positions = {}`, nothing drawn. -/
def initState : MarkerState :=
  ⟨fun _ => 0, []⟩

/-- The whole marker loop of `generate_chart`:
`marker_offset = price_range * 0.04` and then one `stepLeg` per leg, in input
order. -/
def runLegs (data : OhlcvSeries) (legs : List Leg) : MarkerState :=
  legs.foldl (stepLeg data (priceRange data * 0.04)) initState

/-- Whether a leg survives the per-leg error handling: its timestamp parsed
and its resolved position passes the `0 <= idx < len(data)` bound check. -/
def legResolvable (data : OhlcvSeries) (leg : Leg) : Bool :=
  match leg.executed_at with
  | none => false
  | some t => decide (resolveIdx data t < data.rows.length)

/-- The marker the loop draws for a leg resolved to position `i` when the
shared per-position counter at `i` reads `c`: horizontal jitter
`-0.15 + c * 0.15` for buy-side legs and `0.15 + c * 0.15` for sell-side
legs, vertical position from the candle at `i` offset by `mo`. -/
def mkMarkerAt (data : OhlcvSeries) (mo : ℚ) (i : Nat) (c : Nat) (leg : Leg) : Marker :=
  { x := (i : ℚ) + (if isBuyLeg leg.leg_type then -0.15 + (c : ℚ) * 0.15
                    else 0.15 + (c : ℚ) * 0.15)
    y := if isBuyLeg leg.leg_type then (rowAt data i).low - mo else (rowAt data i).high + mo
    shape := if isBuyLeg leg.leg_type then "^" else "v"
    color := legColors leg.leg_type
    size := 150 }

/-- The markers a run of legs all resolving to position `i` produces when the
shared counter at `i` starts at `c`. -/
def legsMarkersFrom (data : OhlcvSeries) (mo : ℚ) (i : Nat) : Nat → List Leg → List Marker
  | _, [] => []
  | c, leg :: rest => mkMarkerAt data mo i c leg :: legsMarkersFrom data mo i (c + 1) rest

/-- A dashed horizontal reference line `ax_price.axhline(y=..., color=...)`. -/
structure RefLine where
  y : ℚ
  color : String
deriving DecidableEq

/-- `is_profit = (exit_price > entry_price) if direction == 'LONG' else
(exit_price < entry_price)`. -/
def isProfit (direction : String) (entry_price xp : ℚ) : Bool :=
  if direction == "LONG" then decide (entry_price < xp) else decide (xp < entry_price)

/-- The `if exit_price:` block: a missing (`None`) or zero (falsy) exit price
draws no line, otherwise the line is drawn at the exit price, green when the
trade is profitable and red otherwise. -/
def exitLineOf (entry_price : ℚ) (exit_price : Option ℚ) (direction : String) :
    Option RefLine :=
  match exit_price with
  | none => none
  | some xp =>
      if xp = 0 then none
      else some ⟨xp, if isProfit direction entry_price xp then "#10b981" else "#ef4444"⟩

/-- `interval_labels.get(interval, interval)` with
`interval_labels = {'1d': 'Daily', '1h': 'Hourly', '5m': '5 Min'}`. -/
def intervalLabel (interval : String) : String :=
  if interval == "1d" then "Daily"
  else if interval == "1h" then "Hourly"
  else if interval == "5m" then "5 Min"
  else interval

/-- Everything `generate_chart` draws onto the base chart before serialising
the figure. -/
structure ChartResult where
  entryLine : RefLine
  exitLine : Option RefLine
  markers : List Marker
  ylim : ℚ × ℚ
  title : String
deriving DecidableEq

/-- `generate_chart` of `scripts/chart-server.py`.  `default_ylim` is the
`ax_price.get_ylim()` pair chosen by the black-box rendering engine for the
base chart.  An empty frame raises `ValueError("No data available")`; on a
non-empty frame the function draws the entry line, the optional exit line,
the per-leg markers, expands the y-axis bounds, sets the title and returns
the serialised figure. -/
def generate_chart (ticker : String) (data : OhlcvSeries) (legs : List Leg)
    (entry_price : ℚ) (exit_price : Option ℚ) (direction : String)
    (interval : String) (default_ylim : ℚ × ℚ) : Except String ChartResult :=
  if data.rows.isEmpty then
    Except.error "No data available"
  else
    Except.ok
      { entryLine := ⟨entry_price, "#10b981"⟩
        exitLine := exitLineOf entry_price exit_price direction
        markers := (runLegs data legs).markers
        ylim := (min default_ylim.1 (seriesLow data - priceRange data * 0.08),
                 max default_ylim.2 (seriesHigh data + priceRange data * 0.08))
        title := ticker ++ " - " ++ intervalLabel interval }

/-- Whether the render succeeded. -/
def resultOk : Except String ChartResult → Bool
  | .ok _ => true
  | .error _ => false

/-- The markers of a successful render (`[]` on failure). -/
def resultMarkers : Except String ChartResult → List Marker
  | .ok r => r.markers
  | .error _ => []

/-- The entry reference line of a successful render. -/
def resultEntryLine : Except String ChartResult → RefLine
  | .ok r => r.entryLine
  | .error _ => ⟨0, ""⟩

/-- The exit reference line of a successful render (`none` both when the
render failed and when no exit line was drawn). -/
def resultExitLine : Except String ChartResult → Option RefLine
  | .ok r => r.exitLine
  | .error _ => none

/-- The final y-limits of a successful render. -/
def resultYlim : Except String ChartResult → ℚ × ℚ
  | .ok r => r.ylim
  | .error _ => (0, 0)

/-- The title of a successful render. -/
def resultTitle : Except String ChartResult → String
  | .ok r => r.title
  | .error _ => ""

/- Concrete sample data used by the witnesses. -/

/-- A sample bar at index time 0. -/
def bar0 : Row :=
  ⟨0, 10, 12, 9, 11, 1000⟩

/-- A sample bar at index time 100. -/
def bar1 : Row :=
  ⟨100, 11, 13, 10, 12, 1100⟩

/-- A two-bar series with a naive index. -/
def series2 : OhlcvSeries :=
  ⟨none, [bar0, bar1]⟩

/-- A one-bar series with a naive index. -/
def series1 : OhlcvSeries :=
  ⟨none, [bar0]⟩

/-- A two-bar series with a UTC-aware index. -/
def seriesUTC : OhlcvSeries :=
  ⟨some 0, [bar0, bar1]⟩

/-- An empty series. -/
def emptySeries : OhlcvSeries :=
  ⟨none, []⟩

/-- A sample leg with the given type and a naive timestamp. -/
def sampleLeg (lt : String) (t : Int) : Leg :=
  ⟨some (.naive t), some lt, 10⟩

/-- A sample leg whose timestamp failed to parse. -/
def badLeg : Leg :=
  ⟨none, some "ENTRY", 10⟩

/-- On a non-empty frame `generate_chart` takes the success branch, with all
drawn artefacts explicit. -/
theorem generate_chart_eq_ok (ticker : String) (data : OhlcvSeries) (legs : List Leg)
    (entry_price : ℚ) (exit_price : Option ℚ) (direction : String)
    (interval : String) (default_ylim : ℚ × ℚ) (hne : data.rows ≠ []) :
    generate_chart ticker data legs entry_price exit_price direction interval default_ylim =
      Except.ok
        { entryLine := ⟨entry_price, "#10b981"⟩
          exitLine := exitLineOf entry_price exit_price direction
          markers := (runLegs data legs).markers
          ylim := (min default_ylim.1 (seriesLow data - priceRange data * 0.08),
                   max default_ylim.2 (seriesHigh data + priceRange data * 0.08))
          title := ticker ++ " - " ++ intervalLabel interval } := by
  have h : data.rows.isEmpty = false := by simp [List.isEmpty_iff, hne]
  simp [generate_chart, h]

/-- C1: for an empty OHLCV series `generate_chart` always raises
`ValueError("No data available")` and produces no image, whatever the legs,
prices and direction are; for a non-empty series this error branch is never
taken and the render succeeds. -/
theorem empty_series_fails (ticker : String) (data : OhlcvSeries) (legs : List Leg)
    (entry_price : ℚ) (exit_price : Option ℚ) (direction : String)
    (interval : String) (default_ylim : ℚ × ℚ) :
    (data.rows = [] →
      generate_chart ticker data legs entry_price exit_price direction interval default_ylim =
        Except.error "No data available") ∧
    (data.rows ≠ [] →
      resultOk
        (generate_chart ticker data legs entry_price exit_price direction interval
          default_ylim) = true) := by
  constructor
  · intro h
    simp [generate_chart, h]
  · intro h
    rw [generate_chart_eq_ok _ _ _ _ _ _ _ _ h]
    rfl

/-- Witness for C1: the concrete empty series fails with the exact error and
a concrete two-bar series renders successfully. -/
theorem empty_series_fails_witness :
    (generate_chart "AAPL" emptySeries [] 100 none "LONG" "1d" (0, 0) =
      Except.error "No data available") ∧
    resultOk (generate_chart "AAPL" series2 [] 100 none "LONG" "1d" (9, 13)) = true :=
  ⟨(empty_series_fails "AAPL" emptySeries [] 100 none "LONG" "1d" (0, 0)).1 rfl,
   (empty_series_fails "AAPL" series2 [] 100 none "LONG" "1d" (9, 13)).2 (by decide)⟩

/-- A leg that fails to parse or resolves out of range leaves the marker-loop
state untouched. -/
theorem stepLeg_not_resolvable (data : OhlcvSeries) (mo : ℚ) (st : MarkerState) (leg : Leg)
    (h : legResolvable data leg = false) :
    stepLeg data mo st leg = st := by
  have h' := h
  unfold legResolvable at h'
  cases ht : leg.executed_at with
  | none => simp [stepLeg, ht]
  | some t =>
      rw [ht] at h'
      simp only [decide_eq_false_iff_not, Nat.not_lt] at h'
      simp [stepLeg, ht, List.getElem?_eq_none h']

/-- Dropping the non-resolvable legs does not change the marker loop. -/
theorem foldl_stepLeg_filter (data : OhlcvSeries) (mo : ℚ) :
    ∀ (legs : List Leg) (st : MarkerState),
      (legs.filter (legResolvable data)).foldl (stepLeg data mo) st =
        legs.foldl (stepLeg data mo) st := by
  intro legs
  induction legs with
  | nil => intro st; rfl
  | cons a l ih =>
      intro st
      by_cases h : legResolvable data a = true
      · rw [List.filter_cons_of_pos h, List.foldl_cons, List.foldl_cons]
        exact ih _
      · have hf : legResolvable data a = false := by simpa using h
        rw [List.filter_cons_of_neg (by simp [hf]), List.foldl_cons,
          stepLeg_not_resolvable data mo st a hf]
        exact ih st

/-- C2: on a non-empty series a leg whose timestamp does not parse or whose
resolved position fails the range check is skipped: the render still succeeds,
the skipped legs never change the success/failure outcome, and the markers
drawn are exactly those of the well-formed legs (the render with all legs
draws the same markers as the render with only the resolvable legs). -/
theorem malformed_legs_skipped (ticker : String) (data : OhlcvSeries) (legs : List Leg)
    (entry_price : ℚ) (exit_price : Option ℚ) (direction : String)
    (interval : String) (default_ylim : ℚ × ℚ) (hne : data.rows ≠ []) :
    resultOk
      (generate_chart ticker data legs entry_price exit_price direction interval
        default_ylim) = true ∧
    resultMarkers
      (generate_chart ticker data legs entry_price exit_price direction interval
        default_ylim) =
      resultMarkers
        (generate_chart ticker data (legs.filter (legResolvable data)) entry_price
          exit_price direction interval default_ylim) := by
  rw [generate_chart_eq_ok _ _ _ _ _ _ _ _ hne, generate_chart_eq_ok _ _ _ _ _ _ _ _ hne]
  refine ⟨rfl, ?_⟩
  show (runLegs data legs).markers = (runLegs data (legs.filter (legResolvable data))).markers
  unfold runLegs
  rw [foldl_stepLeg_filter]

/-- Witness for C2: a concrete list holding one unparseable leg and one good
ENTRY leg renders successfully and draws exactly the good leg's marker. -/
theorem malformed_legs_skipped_witness :
    resultOk
      (generate_chart "AAPL" series2 [badLeg, sampleLeg "ENTRY" 0] 100 none "LONG" "1d"
        (9, 13)) = true ∧
    resultMarkers
      (generate_chart "AAPL" series2 [badLeg, sampleLeg "ENTRY" 0] 100 none "LONG" "1d"
        (9, 13)) =
      resultMarkers
        (generate_chart "AAPL" series2
          ([badLeg, sampleLeg "ENTRY" 0].filter (legResolvable series2)) 100 none "LONG"
          "1d" (9, 13)) :=
  malformed_legs_skipped "AAPL" series2 [badLeg, sampleLeg "ENTRY" 0] 100 none "LONG" "1d"
    (9, 13) (by decide)

/-- C6: an exit reference line is drawn exactly when `exit_price` is present
and non-zero; its color is green exactly when the trade is profitable
(LONG and exit above entry, or SHORT and exit below entry) and red otherwise;
a missing or zero exit price suppresses the line without error; the entry line
is always drawn at the entry price with the fixed green color. -/
theorem reference_line_law (ticker : String) (data : OhlcvSeries) (legs : List Leg)
    (entry_price : ℚ) (exit_price : Option ℚ) (direction : String)
    (interval : String) (default_ylim : ℚ × ℚ) (hne : data.rows ≠ [])
    (hdir : direction = "LONG" ∨ direction = "SHORT") :
    resultOk
      (generate_chart ticker data legs entry_price exit_price direction interval
        default_ylim) = true ∧
    resultEntryLine
      (generate_chart ticker data legs entry_price exit_price direction interval
        default_ylim) = ⟨entry_price, "#10b981"⟩ ∧
    ((exit_price = none ∨ exit_price = some 0) →
      resultExitLine
        (generate_chart ticker data legs entry_price exit_price direction interval
          default_ylim) = none) ∧
    (∀ xp : ℚ, exit_price = some xp → xp ≠ 0 →
      resultExitLine
        (generate_chart ticker data legs entry_price exit_price direction interval
          default_ylim) =
        some ⟨xp,
          if (direction = "LONG" ∧ entry_price < xp) ∨
              (direction = "SHORT" ∧ xp < entry_price) then "#10b981" else "#ef4444"⟩) := by
  rw [generate_chart_eq_ok _ _ _ _ _ _ _ _ hne]
  refine ⟨rfl, rfl, ?_, ?_⟩
  · rintro (h | h) <;> simp [resultExitLine, exitLineOf, h]
  · intro xp hxp hne0
    show exitLineOf entry_price exit_price direction = _
    rw [hxp]
    simp only [exitLineOf]
    rw [if_neg hne0]
    rcases hdir with hd | hd <;> subst hd
    · by_cases hlt : entry_price < xp
      · rw [if_pos (Or.inl ⟨rfl, hlt⟩)]
        have hp : isProfit "LONG" entry_price xp = true := by simp [isProfit, hlt]
        simp [hp]
      · have hcond : ¬ (("LONG" = "LONG" ∧ entry_price < xp) ∨
            ("LONG" = "SHORT" ∧ xp < entry_price)) := by
          rintro (⟨-, h⟩ | ⟨h, -⟩)
          · exact hlt h
          · exact absurd h (by decide)
        rw [if_neg hcond]
        have hp : isProfit "LONG" entry_price xp = false := by simp [isProfit, hlt]
        simp [hp]
    · by_cases hlt : xp < entry_price
      · rw [if_pos (Or.inr ⟨rfl, hlt⟩)]
        have hp : isProfit "SHORT" entry_price xp = true := by simp [isProfit, hlt]
        simp [hp]
      · have hcond : ¬ (("SHORT" = "LONG" ∧ entry_price < xp) ∨
            ("SHORT" = "SHORT" ∧ xp < entry_price)) := by
          rintro (⟨h, -⟩ | ⟨-, h⟩)
          · exact absurd h (by decide)
          · exact hlt h
        rw [if_neg hcond]
        have hp : isProfit "SHORT" entry_price xp = false := by simp [isProfit, hlt]
        simp [hp]

/-- Witness for C6: concrete renders with a profitable LONG exit, a losing
SHORT exit at the same prices, and a missing exit price. -/
theorem reference_line_law_witness :
    (resultExitLine (generate_chart "AAPL" series2 [] 100 (some 110) "LONG" "1d" (9, 13)) =
      some ⟨110, "#10b981"⟩) ∧
    (resultExitLine (generate_chart "AAPL" series2 [] 100 (some 110) "SHORT" "1d" (9, 13)) =
      some ⟨110, "#ef4444"⟩) ∧
    (resultExitLine (generate_chart "AAPL" series2 [] 100 none "LONG" "1d" (9, 13)) =
      none) ∧
    resultEntryLine (generate_chart "AAPL" series2 [] 100 (some 110) "LONG" "1d" (9, 13)) =
      ⟨100, "#10b981"⟩ := by
  refine ⟨?_, ?_, ?_, ?_⟩
  · rw [(reference_line_law "AAPL" series2 [] 100 (some 110) "LONG" "1d" (9, 13)
      (by decide) (Or.inl rfl)).2.2.2 110 rfl (by decide)]
    decide
  · rw [(reference_line_law "AAPL" series2 [] 100 (some 110) "SHORT" "1d" (9, 13)
      (by decide) (Or.inr rfl)).2.2.2 110 rfl (by decide)]
    decide
  · exact (reference_line_law "AAPL" series2 [] 100 none "LONG" "1d" (9, 13)
      (by decide) (Or.inl rfl)).2.2.1 (Or.inl rfl)
  · exact (reference_line_law "AAPL" series2 [] 100 (some 110) "LONG" "1d" (9, 13)
      (by decide) (Or.inl rfl)).2.1

/-- C7: the final vertical range of the price pane contains the interval
from `min(Low) - 0.08 * range` to `max(High) + 0.08 * range`, and is the
union with the default range chosen by the rendering engine (the default
range is never shrunk). -/
theorem bounds_law (ticker : String) (data : OhlcvSeries) (legs : List Leg)
    (entry_price : ℚ) (exit_price : Option ℚ) (direction : String)
    (interval : String) (default_ylim : ℚ × ℚ) (hne : data.rows ≠ []) :
    resultOk
      (generate_chart ticker data legs entry_price exit_price direction interval
        default_ylim) = true ∧
    (resultYlim
        (generate_chart ticker data legs entry_price exit_price direction interval
          default_ylim)).1 ≤ seriesLow data - priceRange data * 0.08 ∧
    seriesHigh data + priceRange data * 0.08 ≤
      (resultYlim
        (generate_chart ticker data legs entry_price exit_price direction interval
          default_ylim)).2 ∧
    (resultYlim
        (generate_chart ticker data legs entry_price exit_price direction interval
          default_ylim)).1 ≤ default_ylim.1 ∧
    default_ylim.2 ≤
      (resultYlim
        (generate_chart ticker data legs entry_price exit_price direction interval
          default_ylim)).2 := by
  rw [generate_chart_eq_ok _ _ _ _ _ _ _ _ hne]
  exact ⟨rfl, min_le_right _ _, le_max_right _ _, min_le_left _ _, le_max_left _ _⟩

/-- Witness for C7 at a concrete series and default range. -/
theorem bounds_law_witness :
    resultOk (generate_chart "AAPL" series2 [] 100 none "LONG" "1d" (9, 13)) = true ∧
    (resultYlim (generate_chart "AAPL" series2 [] 100 none "LONG" "1d" (9, 13))).1 ≤
      seriesLow series2 - priceRange series2 * 0.08 ∧
    seriesHigh series2 + priceRange series2 * 0.08 ≤
      (resultYlim (generate_chart "AAPL" series2 [] 100 none "LONG" "1d" (9, 13))).2 ∧
    (resultYlim (generate_chart "AAPL" series2 [] 100 none "LONG" "1d" (9, 13))).1 ≤ 9 ∧
    (13 : ℚ) ≤
      (resultYlim (generate_chart "AAPL" series2 [] 100 none "LONG" "1d" (9, 13))).2 :=
  bounds_law "AAPL" series2 [] 100 none "LONG" "1d" (9, 13) (by decide)

/-- C9: the chart title is `"{ticker} - {interval label}"`, with the label
determined by the requested interval: `1d` gives `Daily`, `1h` gives
`Hourly`, `5m` gives `5 Min`. -/
theorem chart_title_law (ticker : String) (data : OhlcvSeries) (legs : List Leg)
    (entry_price : ℚ) (exit_price : Option ℚ) (direction : String)
    (interval : String) (default_ylim : ℚ × ℚ) (hne : data.rows ≠ []) :
    resultTitle
      (generate_chart ticker data legs entry_price exit_price direction interval
        default_ylim) = ticker ++ " - " ++ intervalLabel interval ∧
    (interval = "1d" →
      resultTitle
        (generate_chart ticker data legs entry_price exit_price direction interval
          default_ylim) = ticker ++ " - " ++ "Daily") ∧
    (interval = "1h" →
      resultTitle
        (generate_chart ticker data legs entry_price exit_price direction interval
          default_ylim) = ticker ++ " - " ++ "Hourly") ∧
    (interval = "5m" →
      resultTitle
        (generate_chart ticker data legs entry_price exit_price direction interval
          default_ylim) = ticker ++ " - " ++ "5 Min") := by
  rw [generate_chart_eq_ok _ _ _ _ _ _ _ _ hne]
  refine ⟨rfl, ?_, ?_, ?_⟩ <;> intro h <;> subst h <;> rfl

/-- Witness for C9 at the three supported intervals. -/
theorem chart_title_law_witness :
    resultTitle (generate_chart "AAPL" series2 [] 100 none "LONG" "1d" (9, 13)) =
      "AAPL - Daily" ∧
    resultTitle (generate_chart "AAPL" series2 [] 100 none "LONG" "1h" (9, 13)) =
      "AAPL - Hourly" ∧
    resultTitle (generate_chart "AAPL" series2 [] 100 none "LONG" "5m" (9, 13)) =
      "AAPL - 5 Min" :=
  ⟨(chart_title_law "AAPL" series2 [] 100 none "LONG" "1d" (9, 13) (by decide)).2.1 rfl,
   (chart_title_law "AAPL" series2 [] 100 none "LONG" "1h" (9, 13) (by decide)).2.2.1 rfl,
   (chart_title_law "AAPL" series2 [] 100 none "LONG" "5m" (9, 13) (by decide)).2.2.2 rfl⟩

/-- The nearest-index scan always returns a position below the running
bound. -/
theorem nearestIdxGo_lt (k : Int) :
    ∀ (l : List Int) (i best bd : Nat), best < i →
      nearestIdxGo k l i best bd < i + l.length := by
  intro l
  induction l with
  | nil =>
      intro i best bd h
      simpa [nearestIdxGo] using h
  | cons t rest ih =>
      intro i best bd h
      simp only [nearestIdxGo, List.length_cons]
      split
      · have := ih (i + 1) i ((t - k).natAbs) (Nat.lt_succ_self i)
        omega
      · have := ih (i + 1) best bd (Nat.lt_succ_of_lt h)
        omega

/-- On a non-empty index the nearest-index lookup returns an in-range
position. -/
theorem nearestIdx_lt (times : List Int) (k : Int) (h : times ≠ []) :
    nearestIdx times k < times.length := by
  cases times with
  | nil => exact absurd rfl h
  | cons t rest =>
      have := nearestIdxGo_lt k rest 1 0 ((t - k).natAbs) Nat.one_pos
      simp only [nearestIdx, List.length_cons]
      omega

/-- On a non-empty frame every parsed timestamp resolves in range, so the
`0 <= idx < len(data)` guard always passes. -/
theorem resolveIdx_lt (data : OhlcvSeries) (t : PTimestamp) (hne : data.rows ≠ []) :
    resolveIdx data t < data.rows.length := by
  have hmap : data.rows.map Row.time ≠ [] := by simpa using hne
  have := nearestIdx_lt (data.rows.map Row.time) (tsKey (reconcileTz data.tz t)) hmap
  simpa [resolveIdx] using this

/-- A leg that parses and resolves in range appends exactly its marker and
bumps the shared counter at its position. -/
theorem stepLeg_resolved (data : OhlcvSeries) (mo : ℚ) (st : MarkerState) (leg : Leg)
    (t : PTimestamp) (i : Nat) (ht : leg.executed_at = some t)
    (hidx : resolveIdx data t = i) (hi : i < data.rows.length) :
    stepLeg data mo st leg =
      { used_positions := fun j => if j = i then st.used_positions i + 1
                                   else st.used_positions j
        markers := st.markers ++ [mkMarkerAt data mo i (st.used_positions i) leg] } := by
  have hrow : rowAt data i = data.rows[i] := by
    simp [rowAt, List.getD, List.getElem?_eq_getElem hi]
  simp [stepLeg, ht, hidx, List.getElem?_eq_getElem hi, mkMarkerAt, hrow]

/-- Running the marker loop over legs that all resolve to the same position
`i` appends one marker per leg, each taking the current value of the shared
counter, and advances the counter by the number of legs. -/
theorem foldl_stepLeg_const_idx (data : OhlcvSeries) (mo : ℚ) (i : Nat)
    (hi : i < data.rows.length) :
    ∀ (legs : List Leg) (st : MarkerState),
      (∀ leg ∈ legs, ∃ t, leg.executed_at = some t ∧ resolveIdx data t = i) →
      (legs.foldl (stepLeg data mo) st).markers =
          st.markers ++ legsMarkersFrom data mo i (st.used_positions i) legs ∧
      (legs.foldl (stepLeg data mo) st).used_positions i =
          st.used_positions i + legs.length := by
  intro legs
  induction legs with
  | nil =>
      intro st _
      simp [legsMarkersFrom]
  | cons a l ih =>
      intro st hall
      obtain ⟨t, ht, hidx⟩ := hall a (List.mem_cons_self a l)
      have hstep := stepLeg_resolved data mo st a t i ht hidx hi
      have htail :=
        ih (stepLeg data mo st a) (fun leg hm => hall leg (List.mem_cons_of_mem a hm))
      rw [List.foldl_cons]
      constructor
      · rw [htail.1, hstep]
        show (st.markers ++ [mkMarkerAt data mo i (st.used_positions i) a]) ++
            legsMarkersFrom data mo i
              (if i = i then st.used_positions i + 1 else st.used_positions i) l =
          st.markers ++ legsMarkersFrom data mo i (st.used_positions i) (a :: l)
        rw [if_pos rfl]
        simp only [legsMarkersFrom]
        rw [List.append_assoc, List.singleton_append]
      · rw [htail.2, hstep]
        show (if i = i then st.used_positions i + 1 else st.used_positions i) + l.length =
          st.used_positions i + (a :: l).length
        rw [if_pos rfl, List.length_cons]
        omega

/-- Length of the marker run: one marker per leg. -/
theorem legsMarkersFrom_length (data : OhlcvSeries) (mo : ℚ) (i : Nat) :
    ∀ (legs : List Leg) (c : Nat),
      (legsMarkersFrom data mo i c legs).length = legs.length := by
  intro legs
  induction legs with
  | nil => intro c; rfl
  | cons a l ih => intro c; simp [legsMarkersFrom, ih]

/-- The `k`-th marker of a run starting at counter value `c` uses counter
value `c + k`. -/
theorem legsMarkersFrom_getElem? (data : OhlcvSeries) (mo : ℚ) (i : Nat) :
    ∀ (legs : List Leg) (c k : Nat) (leg : Leg), legs[k]? = some leg →
      (legsMarkersFrom data mo i c legs)[k]? =
        some (mkMarkerAt data mo i (c + k) leg) := by
  intro legs
  induction legs with
  | nil => intro c k leg h; simp at h
  | cons a l ih =>
      intro c k leg h
      have hunf : legsMarkersFrom data mo i c (a :: l) =
          mkMarkerAt data mo i c a :: legsMarkersFrom data mo i (c + 1) l := rfl
      cases k with
      | zero =>
          simp only [List.getElem?_cons_zero, Option.some.injEq] at h
          subst h
          rw [hunf, List.getElem?_cons_zero, Nat.add_zero]
      | succ k =>
          simp only [List.getElem?_cons_succ] at h
          have h2 := ih (c + 1) k leg h
          have hc : c + 1 + k = c + (k + 1) := by omega
          rw [hunf, List.getElem?_cons_succ, h2, hc]

/-- Every marker of a run is a `mkMarkerAt` for some counter value. -/
theorem mem_legsMarkersFrom (data : OhlcvSeries) (mo : ℚ) (i : Nat) :
    ∀ (legs : List Leg) (c : Nat) (m : Marker), m ∈ legsMarkersFrom data mo i c legs →
      ∃ (c2 : Nat) (leg : Leg), m = mkMarkerAt data mo i c2 leg := by
  intro legs
  induction legs with
  | nil => intro c m h; simp [legsMarkersFrom] at h
  | cons a l ih =>
      intro c m h
      simp only [legsMarkersFrom, List.mem_cons] at h
      rcases h with h | h
      · exact ⟨c, a, h⟩
      · exact ih (c + 1) m h

/-- C10: the collision counter counts markers of both sides together: when
all legs resolve to the same series position `i`, the `k`-th marker placed
there (`k` starting at 0, buy-side and sell-side legs counted together in
input order) gets horizontal offset `-0.15 + 0.15 * k` if buy-side and
`0.15 + 0.15 * k` if sell-side; in particular a buy-side marker that is the
second marker at the position lands at offset exactly `0`, and an offset
depends on how many opposite-side legs preceded it at that position. -/
theorem marker_jitter_shared_counter (ticker : String) (data : OhlcvSeries)
    (legs : List Leg) (entry_price : ℚ) (exit_price : Option ℚ) (direction : String)
    (interval : String) (default_ylim : ℚ × ℚ) (i : Nat)
    (hne : data.rows ≠ [])
    (hall : ∀ leg ∈ legs, ∃ t, leg.executed_at = some t ∧ resolveIdx data t = i) :
    (resultMarkers
        (generate_chart ticker data legs entry_price exit_price direction interval
          default_ylim)).length = legs.length ∧
    ∀ (k : Nat) (leg : Leg), legs[k]? = some leg →
      (resultMarkers
          (generate_chart ticker data legs entry_price exit_price direction interval
            default_ylim))[k]? =
        some { x := (i : ℚ) + (if isBuyLeg leg.leg_type then -0.15 + (k : ℚ) * 0.15
                               else 0.15 + (k : ℚ) * 0.15)
               y := if isBuyLeg leg.leg_type then
                      (rowAt data i).low - priceRange data * 0.04
                    else (rowAt data i).high + priceRange data * 0.04
               shape := if isBuyLeg leg.leg_type then "^" else "v"
               color := legColors leg.leg_type
               size := 150 } := by
  cases legs with
  | nil =>
      rw [generate_chart_eq_ok _ _ _ _ _ _ _ _ hne]
      exact ⟨rfl, by intro k leg h; simp at h⟩
  | cons a l =>
      obtain ⟨t0, ht0, hidx0⟩ := hall a (List.mem_cons_self a l)
      have hi : i < data.rows.length := hidx0 ▸ resolveIdx_lt data t0 hne
      rw [generate_chart_eq_ok _ _ _ _ _ _ _ _ hne]
      have hfold :=
        foldl_stepLeg_const_idx data (priceRange data * 0.04) i hi (a :: l) initState hall
      constructor
      · show (runLegs data (a :: l)).markers.length = _
        rw [runLegs, hfold.1]
        simp [initState, legsMarkersFrom_length]
      · intro k leg hk
        show (runLegs data (a :: l)).markers[k]? = _
        rw [runLegs, hfold.1]
        have hget :=
          legsMarkersFrom_getElem? data (priceRange data * 0.04) i (a :: l) 0 k leg hk
        simpa [initState, mkMarkerAt] using hget

/-- Witness for C10: on a one-bar series an ENTRY leg followed by a TRIM leg
at the same position get offsets `-0.15` and `0.15 + 0.15` (the sell-side leg
is the second marker because the counter also counted the buy-side leg). -/
theorem marker_jitter_shared_counter_witness :
    (resultMarkers
        (generate_chart "AAPL" series1 [sampleLeg "ENTRY" 0, sampleLeg "TRIM" 0] 100 none
          "LONG" "1d" (9, 13))).length = 2 ∧
    (resultMarkers
        (generate_chart "AAPL" series1 [sampleLeg "ENTRY" 0, sampleLeg "TRIM" 0] 100 none
          "LONG" "1d" (9, 13)))[1]? =
      some ⟨(3 : ℚ) / 10, (303 : ℚ) / 25, "v", "#f59e0b", 150⟩ := by
  have hall : ∀ leg ∈ [sampleLeg "ENTRY" 0, sampleLeg "TRIM" 0],
      ∃ t, leg.executed_at = some t ∧ resolveIdx series1 t = 0 := by
    intro leg hm
    rcases List.mem_cons.mp hm with h | hm2
    · exact ⟨.naive 0, by rw [h]; exact ⟨rfl, by decide⟩⟩
    · rcases List.mem_cons.mp hm2 with h | hm3
      · exact ⟨.naive 0, by rw [h]; exact ⟨rfl, by decide⟩⟩
      · simp at hm3
  have h := marker_jitter_shared_counter "AAPL" series1
    [sampleLeg "ENTRY" 0, sampleLeg "TRIM" 0] 100 none "LONG" "1d" (9, 13) 0
    (by decide) hall
  refine ⟨h.1, ?_⟩
  rw [h.2 1 (sampleLeg "TRIM" 0) rfl]
  have hb : isBuyLeg (sampleLeg "TRIM" 0).leg_type = false := by decide
  have hc : legColors (sampleLeg "TRIM" 0).leg_type = "#f59e0b" := by decide
  have hr : rowAt series1 0 = bar0 := rfl
  have hpr : priceRange series1 = 3 := by
    norm_num [priceRange, seriesHigh, seriesLow, series1, bar0]
  rw [hb, hc, hr, hpr]
  norm_num [bar0]

/-- C3 counterexample: two buy-side legs (ENTRY then ADD) resolving to the
same position of a one-bar series receive jitter offsets `-0.15` and `0`:
the second offset is not shifted further in the negative direction, does not
keep the negative sign, and its magnitude `0` is not greater than `0.15`, so
same-position buy-side offsets are not strictly increasing in magnitude. -/
theorem buy_jitter_counterexample :
    (resultMarkers
        (generate_chart "AAPL" series1 [sampleLeg "ENTRY" 0, sampleLeg "ADD" 0] 100 none
          "LONG" "1d" (9, 13))).map Marker.x = [-(3 / 20 : ℚ), 0] ∧
    ¬ ((3 / 20 : ℚ) < |(0 : ℚ)|) := by
  constructor
  · rw [generate_chart_eq_ok _ _ _ _ _ _ _ _ (by decide)]
    show ((runLegs series1 [sampleLeg "ENTRY" 0, sampleLeg "ADD" 0]).markers).map
        Marker.x = _
    rw [runLegs, List.foldl_cons, List.foldl_cons, List.foldl_nil,
      stepLeg_resolved series1 (priceRange series1 * 0.04) initState
        (sampleLeg "ENTRY" 0) (.naive 0) 0 rfl (by decide) (by decide),
      stepLeg_resolved series1 (priceRange series1 * 0.04) _
        (sampleLeg "ADD" 0) (.naive 0) 0 rfl (by decide) (by decide)]
    have hb1 : isBuyLeg (sampleLeg "ENTRY" 0).leg_type = true := by decide
    have hb2 : isBuyLeg (sampleLeg "ADD" 0).leg_type = true := by decide
    simp only [initState, mkMarkerAt, hb1, hb2, if_pos rfl, List.nil_append,
      List.singleton_append, List.map_cons, List.map_nil]
    norm_num
  · rw [abs_zero]
    norm_num

/-- C3 (amended): the collision counter at a position is shared between both
sides, so for buy-side legs landing on one position the offsets start at
`-0.15` and advance by `+0.15` per marker already placed there (crossing `0`
at the second marker) — they are pairwise distinct but not of strictly
increasing magnitude and do not keep the negative sign; sell-side offsets are
always at least `+0.15`, so a sell-side marker never sits at offset `0` and a
buy-side and a sell-side marker never coincide at offset `0`. -/
theorem jitter_amended (ticker : String) (data : OhlcvSeries) (legs : List Leg)
    (entry_price : ℚ) (exit_price : Option ℚ) (direction : String)
    (interval : String) (default_ylim : ℚ × ℚ) (i : Nat)
    (hne : data.rows ≠ [])
    (hall : ∀ leg ∈ legs, ∃ t, leg.executed_at = some t ∧ resolveIdx data t = i) :
    ((∀ leg ∈ legs, isBuyLeg leg.leg_type = true) →
      (∀ (k : Nat) (leg : Leg), legs[k]? = some leg →
        ((resultMarkers
            (generate_chart ticker data legs entry_price exit_price direction interval
              default_ylim))[k]?).map Marker.x =
          some ((i : ℚ) + (-0.15 + (k : ℚ) * 0.15))) ∧
      ∀ k1 k2 : Nat, k1 < legs.length → k2 < legs.length → k1 ≠ k2 →
        ((resultMarkers
            (generate_chart ticker data legs entry_price exit_price direction interval
              default_ylim))[k1]?).map Marker.x ≠
          ((resultMarkers
              (generate_chart ticker data legs entry_price exit_price direction interval
                default_ylim))[k2]?).map Marker.x) ∧
    ∀ m ∈ resultMarkers
        (generate_chart ticker data legs entry_price exit_price direction interval
          default_ylim), m.shape = "v" → (i : ℚ) + 0.15 ≤ m.x := by
  rw [generate_chart_eq_ok _ _ _ _ _ _ _ _ hne]
  cases legs with
  | nil =>
      refine ⟨fun _ => ⟨?_, ?_⟩, ?_⟩
      · intro k leg hk
        simp at hk
      · intro k1 k2 hk1 hk2
        simp at hk1
      · intro m hm
        have : (runLegs data ([] : List Leg)).markers = [] := rfl
        rw [show resultMarkers (Except.ok
            { entryLine := (⟨entry_price, "#10b981"⟩ : RefLine)
              exitLine := exitLineOf entry_price exit_price direction
              markers := (runLegs data ([] : List Leg)).markers
              ylim := (min default_ylim.1 (seriesLow data - priceRange data * 0.08),
                       max default_ylim.2 (seriesHigh data + priceRange data * 0.08))
              title := ticker ++ " - " ++ intervalLabel interval }) = [] from rfl] at hm
        simp at hm
  | cons a l =>
      obtain ⟨t0, ht0, hidx0⟩ := hall a (List.mem_cons_self a l)
      have hi : i < data.rows.length := hidx0 ▸ resolveIdx_lt data t0 hne
      have hfold :=
        foldl_stepLeg_const_idx data (priceRange data * 0.04) i hi (a :: l) initState hall
      have hmk : (runLegs data (a :: l)).markers =
          legsMarkersFrom data (priceRange data * 0.04) i 0 (a :: l) := by
        rw [runLegs, hfold.1]
        simp [initState]
      simp only [resultMarkers]
      rw [hmk]
      have hx : ∀ (hbuy : ∀ leg ∈ a :: l, isBuyLeg leg.leg_type = true)
          (k : Nat) (leg : Leg), (a :: l)[k]? = some leg →
          ((legsMarkersFrom data (priceRange data * 0.04) i 0 (a :: l))[k]?).map Marker.x =
            some ((i : ℚ) + (-0.15 + (k : ℚ) * 0.15)) := by
        intro hbuy k leg hk
        rw [legsMarkersFrom_getElem? data (priceRange data * 0.04) i (a :: l) 0 k leg hk]
        have hmem : leg ∈ a :: l := by
          have hk2 := hk
          rw [List.getElem?_eq_some] at hk2
          obtain ⟨hklt, hkeq⟩ := hk2
          exact hkeq ▸ List.getElem_mem hklt
        have hb : isBuyLeg leg.leg_type = true := hbuy leg hmem
        simp [mkMarkerAt, hb]
      refine ⟨fun hbuy => ⟨hx hbuy, ?_⟩, ?_⟩
      · intro k1 k2 hk1 hk2 hne12
        rw [hx hbuy k1 ((a :: l)[k1]) (List.getElem?_eq_getElem hk1),
          hx hbuy k2 ((a :: l)[k2]) (List.getElem?_eq_getElem hk2)]
        intro hcontra
        apply hne12
        have heq := Option.some.inj hcontra
        have h015 : (0.15 : ℚ) ≠ 0 := by norm_num
        have hq : (k1 : ℚ) * 0.15 = (k2 : ℚ) * 0.15 := by linarith
        have hq2 : (k1 : ℚ) = (k2 : ℚ) := mul_right_cancel₀ h015 hq
        exact_mod_cast hq2
      · intro m hm hshape
        obtain ⟨c2, leg, hm2⟩ :=
          mem_legsMarkersFrom data (priceRange data * 0.04) i (a :: l) 0 m hm
        subst hm2
        by_cases hb : isBuyLeg leg.leg_type = true
        · simp [mkMarkerAt, hb] at hshape
        · have hb2 : isBuyLeg leg.leg_type = false := by simpa using hb
          simp only [mkMarkerAt, hb2, Bool.false_eq_true, if_false]
          have hpos : (0 : ℚ) ≤ (c2 : ℚ) * 0.15 := by positivity
          linarith

/-- Witness for C3 (amended): two buy-side legs at the same position of a
one-bar series get offsets `0 + (-0.15 + 0 * 0.15)` and
`0 + (-0.15 + 1 * 0.15)`, which are distinct. -/
theorem jitter_amended_witness :
    ((resultMarkers
        (generate_chart "AAPL" series1 [sampleLeg "ENTRY" 0, sampleLeg "ADD" 0] 100 none
          "LONG" "1d" (9, 13)))[0]?).map Marker.x =
      some ((0 : ℚ) + (-0.15 + (0 : ℚ) * 0.15)) ∧
    ((resultMarkers
        (generate_chart "AAPL" series1 [sampleLeg "ENTRY" 0, sampleLeg "ADD" 0] 100 none
          "LONG" "1d" (9, 13)))[0]?).map Marker.x ≠
      ((resultMarkers
          (generate_chart "AAPL" series1 [sampleLeg "ENTRY" 0, sampleLeg "ADD" 0] 100 none
            "LONG" "1d" (9, 13)))[1]?).map Marker.x := by
  have hall : ∀ leg ∈ [sampleLeg "ENTRY" 0, sampleLeg "ADD" 0],
      ∃ t, leg.executed_at = some t ∧ resolveIdx series1 t = 0 := by
    intro leg hm
    rcases List.mem_cons.mp hm with h | hm2
    · exact ⟨.naive 0, by rw [h]; exact ⟨rfl, by decide⟩⟩
    · rcases List.mem_cons.mp hm2 with h | hm3
      · exact ⟨.naive 0, by rw [h]; exact ⟨rfl, by decide⟩⟩
      · simp at hm3
  have hbuy : ∀ leg ∈ [sampleLeg "ENTRY" 0, sampleLeg "ADD" 0],
      isBuyLeg leg.leg_type = true := by
    intro leg hm
    rcases List.mem_cons.mp hm with h | hm2
    · rw [h]; decide
    · rcases List.mem_cons.mp hm2 with h | hm3
      · rw [h]; decide
      · simp at hm3
  have h := (jitter_amended "AAPL" series1 [sampleLeg "ENTRY" 0, sampleLeg "ADD" 0] 100
    none "LONG" "1d" (9, 13) 0 (by decide) hall).1 hbuy
  exact ⟨h.1 0 (sampleLeg "ENTRY" 0) rfl, h.2 0 1 (by decide) (by decide) (by decide)⟩

/-- On a non-empty frame a single parsed leg draws exactly one marker: the
one the layout computes at its resolved position with counter value 0. -/
theorem single_leg_markers (ticker : String) (data : OhlcvSeries) (leg : Leg)
    (t : PTimestamp) (entry_price : ℚ) (exit_price : Option ℚ) (direction : String)
    (interval : String) (default_ylim : ℚ × ℚ)
    (hne : data.rows ≠ []) (ht : leg.executed_at = some t) :
    resultMarkers
        (generate_chart ticker data [leg] entry_price exit_price direction interval
          default_ylim) =
      [mkMarkerAt data (priceRange data * 0.04) (resolveIdx data t) 0 leg] := by
  rw [generate_chart_eq_ok _ _ _ _ _ _ _ _ hne]
  show (runLegs data [leg]).markers = _
  rw [runLegs, List.foldl_cons, List.foldl_nil,
    stepLeg_resolved data (priceRange data * 0.04) initState leg t (resolveIdx data t) ht
      rfl (resolveIdx_lt data t hne)]
  simp [initState]

/-- C5: a resolved leg's marker is placed vertically from the candle at the
resolved position, not from the leg's own price: buy-side markers at that
bar's low minus 4% of the series price range, sell-side markers at that bar's
high plus the same offset; changing the leg's price field changes nothing. -/
theorem marker_vertical_from_candle (ticker : String) (data : OhlcvSeries) (leg : Leg)
    (t : PTimestamp) (entry_price : ℚ) (exit_price : Option ℚ) (direction : String)
    (interval : String) (default_ylim : ℚ × ℚ)
    (hne : data.rows ≠ []) (ht : leg.executed_at = some t) :
    (resultMarkers
        (generate_chart ticker data [leg] entry_price exit_price direction interval
          default_ylim)).map Marker.y =
      [if isBuyLeg leg.leg_type then
         (rowAt data (resolveIdx data t)).low - priceRange data * 0.04
       else (rowAt data (resolveIdx data t)).high + priceRange data * 0.04] ∧
    ∀ p : ℚ,
      resultMarkers
          (generate_chart ticker data [{ leg with price := p }] entry_price exit_price
            direction interval default_ylim) =
        resultMarkers
          (generate_chart ticker data [leg] entry_price exit_price direction interval
            default_ylim) := by
  constructor
  · rw [single_leg_markers ticker data leg t entry_price exit_price direction interval
      default_ylim hne ht]
    simp [mkMarkerAt]
  · intro p
    rw [single_leg_markers ticker data leg t entry_price exit_price direction interval
        default_ylim hne ht,
      single_leg_markers ticker data { leg with price := p } t entry_price exit_price
        direction interval default_ylim hne ht]
    simp [mkMarkerAt]

/-- Witness for C5: an ENTRY leg on the two-bar series is drawn at the
resolved candle's low minus 4% of the range, and replacing its price by 42
changes nothing. -/
theorem marker_vertical_from_candle_witness :
    (resultMarkers
        (generate_chart "AAPL" series2 [sampleLeg "ENTRY" 0] 100 none "LONG" "1d"
          (9, 13))).map Marker.y =
      [if isBuyLeg (sampleLeg "ENTRY" 0).leg_type then
         (rowAt series2 (resolveIdx series2 (PTimestamp.naive 0))).low -
           priceRange series2 * 0.04
       else (rowAt series2 (resolveIdx series2 (PTimestamp.naive 0))).high +
           priceRange series2 * 0.04] ∧
    resultMarkers
        (generate_chart "AAPL" series2 [{ sampleLeg "ENTRY" 0 with price := 42 }] 100 none
          "LONG" "1d" (9, 13)) =
      resultMarkers
        (generate_chart "AAPL" series2 [sampleLeg "ENTRY" 0] 100 none "LONG" "1d"
          (9, 13)) :=
  ⟨(marker_vertical_from_candle "AAPL" series2 (sampleLeg "ENTRY" 0) (PTimestamp.naive 0)
      100 none "LONG" "1d" (9, 13) (by decide) rfl).1,
   (marker_vertical_from_candle "AAPL" series2 (sampleLeg "ENTRY" 0) (PTimestamp.naive 0)
      100 none "LONG" "1d" (9, 13) (by decide) rfl).2 42⟩

/-- C8: a leg whose `leg_type` is outside ENTRY/ADD/TRIM/EXIT does not crash
the render and receives the default treatment: a sell-side (downward) marker
in neutral gray; recognized types map ENTRY to green, ADD to blue, TRIM to
amber, EXIT to red. -/
theorem unknown_leg_type_default (ticker : String) (data : OhlcvSeries) (leg : Leg)
    (t : PTimestamp) (entry_price : ℚ) (exit_price : Option ℚ) (direction : String)
    (interval : String) (default_ylim : ℚ × ℚ)
    (hne : data.rows ≠ []) (ht : leg.executed_at = some t) :
    resultOk
      (generate_chart ticker data [leg] entry_price exit_price direction interval
        default_ylim) = true ∧
    (resultMarkers
        (generate_chart ticker data [leg] entry_price exit_price direction interval
          default_ylim)).map Marker.color = [legColors leg.leg_type] ∧
    (resultMarkers
        (generate_chart ticker data [leg] entry_price exit_price direction interval
          default_ylim)).map Marker.shape =
      [if isBuyLeg leg.leg_type then "^" else "v"] ∧
    (leg.leg_type ≠ some "ENTRY" → leg.leg_type ≠ some "ADD" →
        leg.leg_type ≠ some "TRIM" → leg.leg_type ≠ some "EXIT" →
      (resultMarkers
          (generate_chart ticker data [leg] entry_price exit_price direction interval
            default_ylim)).map Marker.color = ["#71717a"] ∧
      (resultMarkers
          (generate_chart ticker data [leg] entry_price exit_price direction interval
            default_ylim)).map Marker.shape = ["v"]) ∧
    (leg.leg_type = some "ENTRY" →
      (resultMarkers
          (generate_chart ticker data [leg] entry_price exit_price direction interval
            default_ylim)).map Marker.color = ["#10b981"]) ∧
    (leg.leg_type = some "ADD" →
      (resultMarkers
          (generate_chart ticker data [leg] entry_price exit_price direction interval
            default_ylim)).map Marker.color = ["#3b82f6"]) ∧
    (leg.leg_type = some "TRIM" →
      (resultMarkers
          (generate_chart ticker data [leg] entry_price exit_price direction interval
            default_ylim)).map Marker.color = ["#f59e0b"]) ∧
    (leg.leg_type = some "EXIT" →
      (resultMarkers
          (generate_chart ticker data [leg] entry_price exit_price direction interval
            default_ylim)).map Marker.color = ["#ef4444"]) := by
  have hm := single_leg_markers ticker data leg t entry_price exit_price direction
    interval default_ylim hne ht
  refine ⟨?_, ?_, ?_, ?_, ?_, ?_, ?_, ?_⟩
  · rw [generate_chart_eq_ok _ _ _ _ _ _ _ _ hne]
    rfl
  · rw [hm]
    simp [mkMarkerAt]
  · rw [hm]
    simp [mkMarkerAt]
  · intro h1 h2 h3 h4
    have hb : isBuyLeg leg.leg_type = false := by simp [isBuyLeg, h1, h2]
    have hcol : legColors leg.leg_type = "#71717a" := by
      simp [legColors, h1, h2, h3, h4]
    rw [hm]
    constructor <;> simp [mkMarkerAt, hb, hcol]
  · intro h
    rw [hm]
    simp [mkMarkerAt, legColors, h]
  · intro h
    rw [hm]
    simp [mkMarkerAt, legColors, h]
  · intro h
    rw [hm]
    simp [mkMarkerAt, legColors, h]
  · intro h
    rw [hm]
    simp [mkMarkerAt, legColors, h]

/-- Witness for C8: a leg of unknown type FOO renders as a gray downward
marker without aborting, and an ENTRY leg renders green. -/
theorem unknown_leg_type_default_witness :
    resultOk
      (generate_chart "AAPL" series2 [sampleLeg "FOO" 0] 100 none "LONG" "1d"
        (9, 13)) = true ∧
    (resultMarkers
        (generate_chart "AAPL" series2 [sampleLeg "FOO" 0] 100 none "LONG" "1d"
          (9, 13))).map Marker.color = ["#71717a"] ∧
    (resultMarkers
        (generate_chart "AAPL" series2 [sampleLeg "FOO" 0] 100 none "LONG" "1d"
          (9, 13))).map Marker.shape = ["v"] ∧
    (resultMarkers
        (generate_chart "AAPL" series2 [sampleLeg "ENTRY" 0] 100 none "LONG" "1d"
          (9, 13))).map Marker.color = ["#10b981"] := by
  have h := unknown_leg_type_default "AAPL" series2 (sampleLeg "FOO" 0)
    (PTimestamp.naive 0) 100 none "LONG" "1d" (9, 13) (by decide) rfl
  have h2 := unknown_leg_type_default "AAPL" series2 (sampleLeg "ENTRY" 0)
    (PTimestamp.naive 0) 100 none "LONG" "1d" (9, 13) (by decide) rfl
  obtain ⟨hu1, hu2⟩ := h.2.2.2.1 (by decide) (by decide) (by decide) (by decide)
  exact ⟨h.1, hu1, hu2, h2.2.2.2.2.1 rfl⟩

/-- C4: timezone reconciliation before nearest-index resolution: against a
timezone-aware series a naive leg timestamp is interpreted as UTC and
converted to the series timezone, an aware leg timestamp is converted to the
series timezone; against a naive series the timezone of an aware leg
timestamp is stripped (its wall clock kept) and a naive one is left alone;
consequently a naive timestamp resolves to the same position as the same
instant written explicitly in UTC. -/
theorem timezone_reconciliation (data : OhlcvSeries) (z w u o : Int) :
    (data.tz = some z →
      reconcileTz data.tz (PTimestamp.naive w) = PTimestamp.aware w z ∧
      reconcileTz data.tz (PTimestamp.aware u o) = PTimestamp.aware u z ∧
      resolveIdx data (PTimestamp.naive w) = resolveIdx data (PTimestamp.aware w 0)) ∧
    (data.tz = none →
      reconcileTz data.tz (PTimestamp.naive w) = PTimestamp.naive w ∧
      reconcileTz data.tz (PTimestamp.aware u o) = PTimestamp.naive (u + o)) := by
  constructor
  · intro h
    refine ⟨?_, ?_, ?_⟩ <;>
      simp [reconcileTz, h, PTimestamp.tzIsNone, tz_localize_UTC, tz_convert, resolveIdx,
        tsKey]
  · intro h
    constructor <;> simp [reconcileTz, h, PTimestamp.tzIsNone, tz_localize_none]

/-- Witness for C4: against the UTC-aware series a naive timestamp is read as
UTC and resolves like the explicit UTC timestamp; against a naive series the
timezone of an aware timestamp is stripped keeping its wall clock. -/
theorem timezone_reconciliation_witness :
    reconcileTz seriesUTC.tz (PTimestamp.naive 100) = PTimestamp.aware 100 0 ∧
    resolveIdx seriesUTC (PTimestamp.naive 100) =
      resolveIdx seriesUTC (PTimestamp.aware 100 0) ∧
    reconcileTz series2.tz (PTimestamp.aware 5 7) = PTimestamp.naive 12 := by
  have h1 := (timezone_reconciliation seriesUTC 0 100 5 7).1 rfl
  have h2 := (timezone_reconciliation series2 0 100 5 7).2 rfl
  refine ⟨h1.1, h1.2.2, ?_⟩
  rw [h2.2]
  norm_num

end TradeAnalytics
